import Mathlib

/-!
Verification of the CO2 capture cost calculator
(`Enhanced_CO2_Capture_Cost_Calculator.py`).

The Python floats are modelled as real numbers; numpy arrays over the year
range `np.arange(project_lifetime)` are modelled as lists over
`List.range project_lifetime`; a raised exception is modelled with
`Except String`.  The project lifetime is modelled as a natural number
(the data model declares it an integer, validation confines it to
`[10, 40]`, and the source example passes the integer `30`).
-/

/-- The parameter state held by the Python class `CO2CaptureCostCalculator`
(the fields stored by `__init__`, lines 27-36 of the source). -/
structure CO2CaptureCostCalculator where
  co2_captured_per_year : ℝ
  energy_cost_per_ton_co2 : ℝ
  capital_cost_per_ton_co2 : ℝ
  fixed_opex_per_ton_co2 : ℝ
  variable_opex_per_ton_co2 : ℝ
  project_lifetime : ℕ
  co2_capture_efficiency : ℝ
  discount_rate : ℝ
  inflation_rate : ℝ
  capture_technology : String

/-- `CO2CaptureCostCalculator.__init__` (source lines 5-36): the chain of
range checks, each raising `ValueError` when its condition fails, followed by
storing the parameters.  The Python defaults are `discount_rate=0.05`,
`inflation_rate=0.02`, `capture_technology='post_combustion'`. -/
noncomputable def CO2CaptureCostCalculator.init
    (co2_captured_per_year energy_cost_per_ton_co2 capital_cost_per_ton_co2
      fixed_opex_per_ton_co2 variable_opex_per_ton_co2 : ℝ)
    (project_lifetime : ℕ) (co2_capture_efficiency discount_rate inflation_rate : ℝ)
    (capture_technology : String) : Except String CO2CaptureCostCalculator :=
  if ¬ (50000 ≤ co2_captured_per_year ∧ co2_captured_per_year ≤ 5000000) then
    .error "CO2 captured per year is unrealistic. Should be between 50,000 and 5,000,000 tons."
  else if ¬ (10 ≤ energy_cost_per_ton_co2 ∧ energy_cost_per_ton_co2 ≤ 600) then
    .error "Energy cost per ton of CO2 is outside the expected range (10-600 USD)."
  else if ¬ (50 ≤ capital_cost_per_ton_co2 ∧ capital_cost_per_ton_co2 ≤ 300) then
    .error "Capital cost per ton of CO2 is outside the expected range (50-300 USD)."
  else if ¬ (5 ≤ fixed_opex_per_ton_co2 ∧ fixed_opex_per_ton_co2 ≤ 25) then
    .error "Fixed operating expense (OPEX) per ton of CO2 is outside the expected range (5-25 USD)."
  else if ¬ (1 ≤ variable_opex_per_ton_co2 ∧ variable_opex_per_ton_co2 ≤ 10) then
    .error "Variable operating expense (OPEX) per ton of CO2 is outside the expected range (1-10 USD)."
  else if ¬ (10 ≤ project_lifetime ∧ project_lifetime ≤ 40) then
    .error "Project lifetime is unrealistic. Should be between 10 and 40 years."
  else if ¬ (0.7 ≤ co2_capture_efficiency ∧ co2_capture_efficiency ≤ 0.95) then
    .error "CO2 capture efficiency is unrealistic. Should be between 0.7 and 0.95."
  else
    .ok { co2_captured_per_year := co2_captured_per_year
          energy_cost_per_ton_co2 := energy_cost_per_ton_co2
          capital_cost_per_ton_co2 := capital_cost_per_ton_co2
          fixed_opex_per_ton_co2 := fixed_opex_per_ton_co2
          variable_opex_per_ton_co2 := variable_opex_per_ton_co2
          project_lifetime := project_lifetime
          co2_capture_efficiency := co2_capture_efficiency
          discount_rate := discount_rate
          inflation_rate := inflation_rate
          capture_technology := capture_technology }

/-- `calculate_total_cost_and_co2_captured` (source lines 39-64).
`years = np.arange(project_lifetime)`; per year the energy cost escalates by
`1%` of age, the fixed OPEX by `2%`; each year's cost is multiplied by the
discount factor `1/(1+discount_rate)^t` and the inflation factor
`(1+inflation_rate)^t` and the years are summed. -/
noncomputable def calculate_total_cost_and_co2_captured
    (c : CO2CaptureCostCalculator) : ℝ × ℝ :=
  let discounted_costs :=
    (List.range c.project_lifetime).map (fun (t : ℕ) =>
      (c.co2_captured_per_year * c.energy_cost_per_ton_co2 * (1 + 0.01 * (t : ℝ))
        + c.fixed_opex_per_ton_co2 * c.co2_captured_per_year * (1 + 0.02 * (t : ℝ))
        + c.variable_opex_per_ton_co2 * c.co2_captured_per_year)
      * (1 / (1 + c.discount_rate) ^ t) * (1 + c.inflation_rate) ^ t)
  let total_operational_cost := discounted_costs.sum
  let total_capital_cost := c.co2_captured_per_year * c.capital_cost_per_ton_co2
  let total_cost := total_capital_cost + total_operational_cost
  let total_co2_captured :=
    c.co2_captured_per_year * (c.project_lifetime : ℝ) * c.co2_capture_efficiency
  (total_cost, total_co2_captured)

/-- `calculate_cost_per_ton_co2` (source lines 66-76): raises `ValueError`
when the total CO2 captured is zero, otherwise divides. -/
noncomputable def calculate_cost_per_ton_co2
    (c : CO2CaptureCostCalculator) : Except String ℝ :=
  let p := calculate_total_cost_and_co2_captured c
  if p.2 = 0 then
    .error "Total CO2 captured cannot be zero. Please check your inputs."
  else
    .ok (p.1 / p.2)

/-- The calculator built by the usage example (source lines 183-185),
with the default `discount_rate`, `inflation_rate` and technology tag. -/
noncomputable def exampleCalculator : CO2CaptureCostCalculator :=
  { co2_captured_per_year := 1000000
    energy_cost_per_ton_co2 := 30
    capital_cost_per_ton_co2 := 200
    fixed_opex_per_ton_co2 := 15
    variable_opex_per_ton_co2 := 5
    project_lifetime := 30
    co2_capture_efficiency := 0.9
    discount_rate := 0.05
    inflation_rate := 0.02
    capture_technology := "post_combustion" }

/-- A one-year calculator state with zero discount and inflation rates,
used to check the collapsed single-year formula. -/
noncomputable def unitCalc : CO2CaptureCostCalculator :=
  { co2_captured_per_year := 100000
    energy_cost_per_ton_co2 := 30
    capital_cost_per_ton_co2 := 200
    fixed_opex_per_ton_co2 := 15
    variable_opex_per_ton_co2 := 5
    project_lifetime := 1
    co2_capture_efficiency := 0.9
    discount_rate := 0
    inflation_rate := 0
    capture_technology := "post_combustion" }

/-- Summing a mapped `List.range` is the corresponding `Finset.range` sum. -/
theorem list_range_map_sum (f : ℕ → ℝ) (n : ℕ) :
    ((List.range n).map f).sum = ∑ t ∈ Finset.range n, f t := by
  induction n with
  | zero => simp
  | succ n ih =>
      rw [List.range_succ, List.map_append, List.sum_append, Finset.sum_range_succ, ih]
      simp

/-- Claim C4: `calculate_total_cost_and_co2_captured` returns
`totalCost = capturedPerYear*capitalCostPerTon + ∑ t < lifetime,
capturedPerYear*(energyCost*(1+0.01t) + fixedOpex*(1+0.02t) + variableOpex)
* (1+inflationRate)^t / (1+discountRate)^t` and
`totalCo2Captured = capturedPerYear*lifetime*efficiency`; with `lifetime = 1`,
`discountRate = 0`, `inflationRate = 0` the operational part reduces to
`capturedPerYear*(energyCost+fixedOpex+variableOpex)`. -/
theorem total_cost_and_co2_formula (c : CO2CaptureCostCalculator) :
    ((calculate_total_cost_and_co2_captured c).1
        = c.co2_captured_per_year * c.capital_cost_per_ton_co2
          + ∑ t ∈ Finset.range c.project_lifetime,
              c.co2_captured_per_year
                * (c.energy_cost_per_ton_co2 * (1 + 0.01 * (t : ℝ))
                    + c.fixed_opex_per_ton_co2 * (1 + 0.02 * (t : ℝ))
                    + c.variable_opex_per_ton_co2)
                * (1 + c.inflation_rate) ^ t / (1 + c.discount_rate) ^ t)
    ∧ ((calculate_total_cost_and_co2_captured c).2
        = c.co2_captured_per_year * (c.project_lifetime : ℝ) * c.co2_capture_efficiency)
    ∧ (c.project_lifetime = 1 → c.discount_rate = 0 → c.inflation_rate = 0 →
        (calculate_total_cost_and_co2_captured c).1
          = c.co2_captured_per_year * c.capital_cost_per_ton_co2
            + c.co2_captured_per_year
                * (c.energy_cost_per_ton_co2 + c.fixed_opex_per_ton_co2
                    + c.variable_opex_per_ton_co2)) := by
  have hmain : (calculate_total_cost_and_co2_captured c).1
      = c.co2_captured_per_year * c.capital_cost_per_ton_co2
        + ∑ t ∈ Finset.range c.project_lifetime,
            c.co2_captured_per_year
              * (c.energy_cost_per_ton_co2 * (1 + 0.01 * (t : ℝ))
                  + c.fixed_opex_per_ton_co2 * (1 + 0.02 * (t : ℝ))
                  + c.variable_opex_per_ton_co2)
              * (1 + c.inflation_rate) ^ t / (1 + c.discount_rate) ^ t := by
    simp only [calculate_total_cost_and_co2_captured]
    rw [list_range_map_sum]
    congr 1
    refine Finset.sum_congr rfl (fun t _ => ?_)
    ring
  refine ⟨hmain, rfl, fun h1 h2 h3 => ?_⟩
  rw [hmain, h1, h2, h3]
  norm_num

/-- Witness for the collapsed single-year case of `total_cost_and_co2_formula`,
at the concrete one-year state `unitCalc`. -/
theorem total_cost_and_co2_formula_witness :
    (calculate_total_cost_and_co2_captured unitCalc).1
      = unitCalc.co2_captured_per_year * unitCalc.capital_cost_per_ton_co2
        + unitCalc.co2_captured_per_year
            * (unitCalc.energy_cost_per_ton_co2 + unitCalc.fixed_opex_per_ton_co2
                + unitCalc.variable_opex_per_ton_co2) :=
  (total_cost_and_co2_formula unitCalc).2.2 rfl rfl rfl

/-- Claim C7: construction succeeds exactly when each of the seven validated
parameters lies in its declared plausible range, and fails with a raised
error otherwise. -/
theorem init_ok_iff (captured energy capital fixedOp varOp : ℝ) (lifetime : ℕ)
    (eff dr infl : ℝ) (tech : String) :
    ((∃ c, CO2CaptureCostCalculator.init captured energy capital fixedOp varOp
        lifetime eff dr infl tech = .ok c)
      ↔ ((50000 ≤ captured ∧ captured ≤ 5000000) ∧ (10 ≤ energy ∧ energy ≤ 600)
          ∧ (50 ≤ capital ∧ capital ≤ 300) ∧ (5 ≤ fixedOp ∧ fixedOp ≤ 25)
          ∧ (1 ≤ varOp ∧ varOp ≤ 10) ∧ (10 ≤ lifetime ∧ lifetime ≤ 40)
          ∧ (0.7 ≤ eff ∧ eff ≤ 0.95)))
    ∧ ((∃ e, CO2CaptureCostCalculator.init captured energy capital fixedOp varOp
        lifetime eff dr infl tech = .error e)
      ↔ ¬ ((50000 ≤ captured ∧ captured ≤ 5000000) ∧ (10 ≤ energy ∧ energy ≤ 600)
          ∧ (50 ≤ capital ∧ capital ≤ 300) ∧ (5 ≤ fixedOp ∧ fixedOp ≤ 25)
          ∧ (1 ≤ varOp ∧ varOp ≤ 10) ∧ (10 ≤ lifetime ∧ lifetime ≤ 40)
          ∧ (0.7 ≤ eff ∧ eff ≤ 0.95))) := by
  unfold CO2CaptureCostCalculator.init
  split_ifs with h1 h2 h3 h4 h5 h6 h7 <;> constructor <;> simp_all

/-- Witness for `init_ok_iff`: the usage-example arguments are accepted. -/
theorem init_ok_iff_witness :
    ∃ c, CO2CaptureCostCalculator.init 1000000 30 200 15 5 30 0.9 0.05 0.02
        "post_combustion" = .ok c :=
  (init_ok_iff 1000000 30 200 15 5 30 0.9 0.05 0.02 "post_combustion").1.mpr
    (by norm_num)

/-- Claim C8: `calculate_cost_per_ton_co2` raises exactly when the total CO2
captured is zero, and otherwise returns `totalCost / totalCo2Captured`. -/
theorem cost_per_ton_spec (c : CO2CaptureCostCalculator) :
    ((∃ e, calculate_cost_per_ton_co2 c = .error e)
        ↔ (calculate_total_cost_and_co2_captured c).2 = 0)
    ∧ ((calculate_total_cost_and_co2_captured c).2 ≠ 0 →
        calculate_cost_per_ton_co2 c
          = .ok ((calculate_total_cost_and_co2_captured c).1
                  / (calculate_total_cost_and_co2_captured c).2)) := by
  unfold calculate_cost_per_ton_co2
  by_cases h : (calculate_total_cost_and_co2_captured c).2 = 0 <;> simp [h]

/-- Witness for `cost_per_ton_spec` at the usage-example calculator, whose
total CO2 captured is the nonzero `1000000 * 30 * 0.9`. -/
theorem cost_per_ton_spec_witness :
    calculate_cost_per_ton_co2 exampleCalculator
      = .ok ((calculate_total_cost_and_co2_captured exampleCalculator).1
              / (calculate_total_cost_and_co2_captured exampleCalculator).2) :=
  (cost_per_ton_spec exampleCalculator).2 (by
    simp only [calculate_total_cost_and_co2_captured, exampleCalculator]
    norm_num)

/-- Claim C9: for two states that agree everywhere except that the second has
a strictly larger capital cost per ton, and whose shared captured-per-year,
lifetime and efficiency are positive (the model invariant), both cost-per-ton
calls succeed and the second returns a strictly larger value. -/
theorem cost_per_ton_strict_mono_capital (c : CO2CaptureCostCalculator) (k : ℝ)
    (hcap : c.capital_cost_per_ton_co2 < k)
    (hpos : 0 < c.co2_captured_per_year)
    (hl : 0 < c.project_lifetime)
    (heff : 0 < c.co2_capture_efficiency) :
    calculate_cost_per_ton_co2 c
        = .ok ((calculate_total_cost_and_co2_captured c).1
                / (calculate_total_cost_and_co2_captured c).2)
    ∧ calculate_cost_per_ton_co2 { c with capital_cost_per_ton_co2 := k }
        = .ok ((calculate_total_cost_and_co2_captured
                  { c with capital_cost_per_ton_co2 := k }).1
                / (calculate_total_cost_and_co2_captured
                  { c with capital_cost_per_ton_co2 := k }).2)
    ∧ (calculate_total_cost_and_co2_captured c).1
          / (calculate_total_cost_and_co2_captured c).2
        < (calculate_total_cost_and_co2_captured
              { c with capital_cost_per_ton_co2 := k }).1
          / (calculate_total_cost_and_co2_captured
              { c with capital_cost_per_ton_co2 := k }).2 := by
  have hZ : 0 < (calculate_total_cost_and_co2_captured c).2 := by
    simp only [calculate_total_cost_and_co2_captured]
    have : (0 : ℝ) < (c.project_lifetime : ℝ) := by exact_mod_cast hl
    positivity
  have hZeq : (calculate_total_cost_and_co2_captured
      { c with capital_cost_per_ton_co2 := k }).2
      = (calculate_total_cost_and_co2_captured c).2 := rfl
  have hT : (calculate_total_cost_and_co2_captured c).1
      < (calculate_total_cost_and_co2_captured
          { c with capital_cost_per_ton_co2 := k }).1 := by
    simp only [calculate_total_cost_and_co2_captured]
    exact add_lt_add_right (mul_lt_mul_of_pos_left hcap hpos) _
  refine ⟨(cost_per_ton_spec c).2 (ne_of_gt hZ),
    (cost_per_ton_spec { c with capital_cost_per_ton_co2 := k }).2
      (by rw [hZeq]; exact ne_of_gt hZ), ?_⟩
  rw [hZeq]
  exact (div_lt_div_iff_of_pos_right hZ).mpr hT

/-- Witness for `cost_per_ton_strict_mono_capital`: raising the example
calculator's capital cost per ton from 200 to 250 strictly raises the cost
per ton of CO2. -/
theorem cost_per_ton_strict_mono_capital_witness :
    calculate_cost_per_ton_co2 exampleCalculator
        = .ok ((calculate_total_cost_and_co2_captured exampleCalculator).1
                / (calculate_total_cost_and_co2_captured exampleCalculator).2)
    ∧ calculate_cost_per_ton_co2
          { exampleCalculator with capital_cost_per_ton_co2 := 250 }
        = .ok ((calculate_total_cost_and_co2_captured
                  { exampleCalculator with capital_cost_per_ton_co2 := 250 }).1
                / (calculate_total_cost_and_co2_captured
                  { exampleCalculator with capital_cost_per_ton_co2 := 250 }).2)
    ∧ (calculate_total_cost_and_co2_captured exampleCalculator).1
          / (calculate_total_cost_and_co2_captured exampleCalculator).2
        < (calculate_total_cost_and_co2_captured
              { exampleCalculator with capital_cost_per_ton_co2 := 250 }).1
          / (calculate_total_cost_and_co2_captured
              { exampleCalculator with capital_cost_per_ton_co2 := 250 }).2 :=
  cost_per_ton_strict_mono_capital exampleCalculator 250
    (by norm_num [exampleCalculator]) (by norm_num [exampleCalculator])
    (by norm_num [exampleCalculator]) (by norm_num [exampleCalculator])

/-- The parameter state held by the Python class `CO2SensitivityAnalysis`
(source lines 85-95): a reference to the wrapped calculator plus the
economic-context fields.  The Python defaults are `co2_sale_price_per_ton=50`,
`co2_sale_percentage=0.8`, `carbon_tax=100`, `tax_credit_percentage=0.2`,
`learning_rate=0.10`, `carbon_tax_threshold=100000`. -/
structure CO2SensitivityAnalysis where
  calculator : CO2CaptureCostCalculator
  co2_sale_price_per_ton : ℝ
  co2_sale_percentage : ℝ
  carbon_tax : ℝ
  tax_credit_percentage : ℝ
  learning_rate : ℝ
  carbon_tax_threshold : ℝ

/-- `np.cumsum` on a list, starting from a running total `acc`. -/
def npCumsumFrom (acc : ℝ) : List ℝ → List ℝ
  | [] => []
  | x :: xs => (acc + x) :: npCumsumFrom (acc + x) xs

/-- `np.cumsum`: the list of prefix sums. -/
def npCumsum (l : List ℝ) : List ℝ := npCumsumFrom 0 l

/-- `annual_co2_captured` (source line 162):
`total_co2_captured / project_lifetime`. -/
noncomputable def annual_co2_captured (s : CO2SensitivityAnalysis) : ℝ :=
  (calculate_total_cost_and_co2_captured s.calculator).2
    / (s.calculator.project_lifetime : ℝ)

/-- `cumulative_co2_captured` (source line 171):
`np.cumsum(annual_co2_captured)`.  The argument is the scalar
`annual_co2_captured`, which numpy promotes to the one-element array
`[annual_co2_captured]` before taking the cumulative sum. -/
noncomputable def cumulative_co2_captured (s : CO2SensitivityAnalysis) : List ℝ :=
  npCumsum [annual_co2_captured s]

/-- `annual_variable_opex_learning` (source line 172): the elementwise
`variable_opex_per_ton_co2 * (cumulative_co2_captured / co2_captured_per_year)
^ (-learning_rate)` over the `cumulative_co2_captured` array.  The exponent is
a real power (`Real.rpow`). -/
noncomputable def annual_variable_opex_learning (s : CO2SensitivityAnalysis) : List ℝ :=
  (cumulative_co2_captured s).map (fun cum =>
    s.calculator.variable_opex_per_ton_co2
      * (cum / s.calculator.co2_captured_per_year) ^ (-s.learning_rate))

/-- The learning-curve adjustment entering year `t`'s net cash flow in
`calculate_levelized_cost_of_co2`: the `annual_variable_opex_learning` array
has a single element, and numpy broadcasting replicates it across all
`project_lifetime` years, so every year receives its head. -/
noncomputable def variable_opex_adjusted (s : CO2SensitivityAnalysis) (_t : ℕ) : ℝ :=
  (annual_variable_opex_learning s).headI

set_option linter.unusedVariables false in
/-- `calculate_levelized_cost_of_co2` (source lines 150-180).  The division
`total_co2_captured / project_lifetime` raises `ZeroDivisionError` when the
lifetime is zero; otherwise the function is a pure computation.
`net_annual_costs` (line 175) subtracts the one-element
`annual_variable_opex_learning` array from the scalar
`annual_costs - annual_revenue + annual_tax`, giving a one-element array, and
the multiplication by the `project_lifetime`-element `discount_factors` array
(line 176) broadcasts that single net cost across all years.  `tax_credit`
(line 168) is computed but used nowhere else in the function. -/
noncomputable def calculate_levelized_cost_of_co2
    (s : CO2SensitivityAnalysis) : Except String ℝ :=
  if s.calculator.project_lifetime = 0 then .error "division by zero"
  else
    let p := calculate_total_cost_and_co2_captured s.calculator
    let total_cost := p.1
    let total_co2_captured := p.2
    let annual_co2 := annual_co2_captured s
    let annual_costs := total_cost / (s.calculator.project_lifetime : ℝ)
    let annual_revenue := annual_co2 * s.co2_sale_price_per_ton * s.co2_sale_percentage
    let annual_tax := max 0 (annual_co2 - s.carbon_tax_threshold) * s.carbon_tax
    let tax_credit := s.calculator.capital_cost_per_ton_co2
      * s.calculator.co2_captured_per_year * s.tax_credit_percentage
    let net_annual_costs := (annual_variable_opex_learning s).map
      (fun w => annual_costs - annual_revenue + annual_tax - w)
    let discounted_annual_costs := (List.range s.calculator.project_lifetime).map
      (fun (t : ℕ) => net_annual_costs.headI * (1 / (1 + s.calculator.discount_rate) ^ t))
    .ok (discounted_annual_costs.sum / total_co2_captured)

/-- The sensitivity analysis built by the usage example (source line 187),
wrapping the example calculator with all default economic parameters. -/
noncomputable def exampleSensitivity : CO2SensitivityAnalysis :=
  { calculator := exampleCalculator
    co2_sale_price_per_ton := 50
    co2_sale_percentage := 0.8
    carbon_tax := 100
    tax_credit_percentage := 0.2
    learning_rate := 0.10
    carbon_tax_threshold := 100000 }

/-- The learning array computed at source line 172 has exactly one element:
the cumulative sum of the scalar `annual_co2_captured`. -/
theorem annual_variable_opex_learning_singleton (s : CO2SensitivityAnalysis) :
    annual_variable_opex_learning s
      = [s.calculator.variable_opex_per_ton_co2
          * (annual_co2_captured s / s.calculator.co2_captured_per_year)
            ^ (-s.learning_rate)] := by
  simp [annual_variable_opex_learning, cumulative_co2_captured, npCumsum, npCumsumFrom]

/-- Claim C5: for a nonzero lifetime, `calculate_levelized_cost_of_co2`
returns the sum over years `t` of
`(totalCost/lifetime - annualCo2*salePrice*saleFraction
+ max(0, annualCo2 - taxThreshold)*carbonTaxRate - variableOpexAdjusted(t))
/ (1+discountRate)^t`, divided by the total CO2 captured, where
`annualCo2 = totalCo2Captured/lifetime`. -/
theorem levelized_cost_formula (s : CO2SensitivityAnalysis)
    (h : s.calculator.project_lifetime ≠ 0) :
    calculate_levelized_cost_of_co2 s = .ok
      ((∑ t ∈ Finset.range s.calculator.project_lifetime,
          ((calculate_total_cost_and_co2_captured s.calculator).1
              / (s.calculator.project_lifetime : ℝ)
            - annual_co2_captured s * s.co2_sale_price_per_ton * s.co2_sale_percentage
            + max 0 (annual_co2_captured s - s.carbon_tax_threshold) * s.carbon_tax
            - variable_opex_adjusted s t)
          / (1 + s.calculator.discount_rate) ^ t)
        / (calculate_total_cost_and_co2_captured s.calculator).2) := by
  rw [calculate_levelized_cost_of_co2, if_neg h]
  refine congrArg Except.ok ?_
  rw [annual_variable_opex_learning_singleton]
  simp only [List.map_cons, List.map_nil, List.headI, list_range_map_sum]
  refine congrArg (fun x => x / (calculate_total_cost_and_co2_captured s.calculator).2) ?_
  refine Finset.sum_congr rfl (fun t _ => ?_)
  rw [variable_opex_adjusted, annual_variable_opex_learning_singleton]
  simp only [List.headI]
  ring

/-- Witness for `levelized_cost_formula` at the usage-example sensitivity
analysis, whose wrapped lifetime is the nonzero 30. -/
theorem levelized_cost_formula_witness :
    calculate_levelized_cost_of_co2 exampleSensitivity = .ok
      ((∑ t ∈ Finset.range exampleSensitivity.calculator.project_lifetime,
          ((calculate_total_cost_and_co2_captured exampleSensitivity.calculator).1
              / (exampleSensitivity.calculator.project_lifetime : ℝ)
            - annual_co2_captured exampleSensitivity
                * exampleSensitivity.co2_sale_price_per_ton
                * exampleSensitivity.co2_sale_percentage
            + max 0 (annual_co2_captured exampleSensitivity
                - exampleSensitivity.carbon_tax_threshold)
                * exampleSensitivity.carbon_tax
            - variable_opex_adjusted exampleSensitivity t)
          / (1 + exampleSensitivity.calculator.discount_rate) ^ t)
        / (calculate_total_cost_and_co2_captured exampleSensitivity.calculator).2) :=
  levelized_cost_formula exampleSensitivity (by decide)

/-- Claim C6: in the code, the cumulative-CO2 series never grows year over
year — `np.cumsum` is applied to the scalar annual capture, so the array is
the single value `[annual_co2_captured]` — and in consequence the
learning-curve adjustment broadcast into year `t`'s cash flow is the same
constant `variableOpex * (annualCo2/capturedPerYear)^(-learningRate)` for
every year, instead of strictly decreasing across years. -/
theorem learning_term_constant (s : CO2SensitivityAnalysis) (t u : ℕ) :
    cumulative_co2_captured s = [annual_co2_captured s]
    ∧ variable_opex_adjusted s t
        = s.calculator.variable_opex_per_ton_co2
          * (annual_co2_captured s / s.calculator.co2_captured_per_year)
            ^ (-s.learning_rate)
    ∧ variable_opex_adjusted s t = variable_opex_adjusted s u := by
  refine ⟨by simp [cumulative_co2_captured, npCumsum, npCumsumFrom], ?_, rfl⟩
  rw [variable_opex_adjusted, annual_variable_opex_learning_singleton]
  rfl

/-- Claim C10: the levelized cost of CO2 does not depend on
`tax_credit_percentage` — the `tax_credit` term is computed at source line
168 but never enters the net annual cash flow. -/
theorem lco2_independent_of_tax_credit (s : CO2SensitivityAnalysis) (x y : ℝ) :
    calculate_levelized_cost_of_co2 { s with tax_credit_percentage := x }
      = calculate_levelized_cost_of_co2 { s with tax_credit_percentage := y } := rfl

/-- The sweepable parameter names used by `analyze_parameter`'s dynamic
`getattr`/`setattr` access: the six economic-context fields of the runner and
the real-valued fields of the wrapped calculator.  (`project_lifetime` is the
calculator's one integer field and `capture_technology` its one string field;
the real-valued sweep machinery modelled here covers the remaining names.) -/
inductive Param where
  | co2_sale_price_per_ton | co2_sale_percentage | carbon_tax
  | tax_credit_percentage | learning_rate | carbon_tax_threshold
  | co2_captured_per_year | energy_cost_per_ton_co2 | capital_cost_per_ton_co2
  | fixed_opex_per_ton_co2 | variable_opex_per_ton_co2
  | co2_capture_efficiency | discount_rate | inflation_rate
deriving DecidableEq

/-- Dynamic attribute read, with the source's resolution order
(line 102: `getattr(self, param) if hasattr(self, param) else
getattr(self.calculator, param)`): the runner's own fields first, then the
wrapped calculator's. -/
def getParam (s : CO2SensitivityAnalysis) : Param → ℝ
  | .co2_sale_price_per_ton => s.co2_sale_price_per_ton
  | .co2_sale_percentage => s.co2_sale_percentage
  | .carbon_tax => s.carbon_tax
  | .tax_credit_percentage => s.tax_credit_percentage
  | .learning_rate => s.learning_rate
  | .carbon_tax_threshold => s.carbon_tax_threshold
  | .co2_captured_per_year => s.calculator.co2_captured_per_year
  | .energy_cost_per_ton_co2 => s.calculator.energy_cost_per_ton_co2
  | .capital_cost_per_ton_co2 => s.calculator.capital_cost_per_ton_co2
  | .fixed_opex_per_ton_co2 => s.calculator.fixed_opex_per_ton_co2
  | .variable_opex_per_ton_co2 => s.calculator.variable_opex_per_ton_co2
  | .co2_capture_efficiency => s.calculator.co2_capture_efficiency
  | .discount_rate => s.calculator.discount_rate
  | .inflation_rate => s.calculator.inflation_rate

/-- Dynamic attribute write, with the same resolution order (source lines
108-111 and 116): `setattr(self, ...)` when the runner has the field,
otherwise `setattr(self.calculator, ...)`. -/
def setParam (s : CO2SensitivityAnalysis) (p : Param) (v : ℝ) :
    CO2SensitivityAnalysis :=
  match p with
  | .co2_sale_price_per_ton => { s with co2_sale_price_per_ton := v }
  | .co2_sale_percentage => { s with co2_sale_percentage := v }
  | .carbon_tax => { s with carbon_tax := v }
  | .tax_credit_percentage => { s with tax_credit_percentage := v }
  | .learning_rate => { s with learning_rate := v }
  | .carbon_tax_threshold => { s with carbon_tax_threshold := v }
  | .co2_captured_per_year =>
      { s with calculator := { s.calculator with co2_captured_per_year := v } }
  | .energy_cost_per_ton_co2 =>
      { s with calculator := { s.calculator with energy_cost_per_ton_co2 := v } }
  | .capital_cost_per_ton_co2 =>
      { s with calculator := { s.calculator with capital_cost_per_ton_co2 := v } }
  | .fixed_opex_per_ton_co2 =>
      { s with calculator := { s.calculator with fixed_opex_per_ton_co2 := v } }
  | .variable_opex_per_ton_co2 =>
      { s with calculator := { s.calculator with variable_opex_per_ton_co2 := v } }
  | .co2_capture_efficiency =>
      { s with calculator := { s.calculator with co2_capture_efficiency := v } }
  | .discount_rate =>
      { s with calculator := { s.calculator with discount_rate := v } }
  | .inflation_rate =>
      { s with calculator := { s.calculator with inflation_rate := v } }

/-- The output of `analyze_parameter`: the mutated runner/calculator state
after the call, the `results` dictionary it returns (empty list for every
name it never appended to), and the message printed by the `except` handler
if an exception was caught. -/
structure AnalyzeOutput where
  self : CO2SensitivityAnalysis
  results : Param → List ℝ
  printed : Option String

/-- The inner loop of `analyze_parameter` (source lines 107-113) for one
parameter: write each value in turn, compute the levelized cost, and collect
the results; a raised error stops the loop, leaving the state as mutated. -/
noncomputable def runValues (p : Param) :
    CO2SensitivityAnalysis → List ℝ →
      CO2SensitivityAnalysis × List ℝ × Option String
  | st, [] => (st, [], none)
  | st, v :: vs =>
      match calculate_levelized_cost_of_co2 (setParam st p v) with
      | .error e => (setParam st p v, [], some e)
      | .ok r =>
          match runValues p (setParam st p v) vs with
          | (stf, rs, err) => (stf, r :: rs, err)

/-- The outer loop of `analyze_parameter` over `zip(parameters, range_values)`
(source lines 106-116): sweep each parameter, record its results, and on
success reset it to its snapshotted original value before the next parameter;
a raised error aborts the loop. -/
noncomputable def sweepLoop (orig : Param → ℝ) :
    CO2SensitivityAnalysis → (Param → List ℝ) → List (Param × List ℝ) →
      CO2SensitivityAnalysis × (Param → List ℝ) × Option String
  | st, res, [] => (st, res, none)
  | st, res, (p, vals) :: rest =>
      match runValues p st vals with
      | (st1, rs, err) =>
          let res1 : Param → List ℝ := fun q => if q = p then res q ++ rs else res q
          match err with
          | some e => (st1, res1, some e)
          | none => sweepLoop orig (setParam st1 p (orig p)) res1 rest

/-- `analyze_parameter` (source lines 97-126): snapshot the original values,
run the sweep inside `try`, print any caught exception
(`except Exception as e: print(f"Error occurred during analysis: {e}")`),
and in `finally` reset every named parameter to its original value before
returning the results dictionary.  No exception escapes to the caller. -/
noncomputable def analyze_parameter (s : CO2SensitivityAnalysis)
    (parameters : List Param) (range_values : List (List ℝ)) : AnalyzeOutput :=
  let original_values : Param → ℝ := fun p => getParam s p
  let swept := sweepLoop original_values s (fun _ => []) (parameters.zip range_values)
  { self := parameters.foldl (fun st p => setParam st p (original_values p)) swept.1
    results := swept.2.1
    printed := swept.2.2.map (fun e => "Error occurred during analysis: " ++ e) }

/-- Reading back the field just written returns the written value. -/
theorem get_set_same (s : CO2SensitivityAnalysis) (p : Param) (v : ℝ) :
    getParam (setParam s p v) p = v := by
  cases p <;> rfl

/-- Writing one field leaves every other field unchanged. -/
theorem get_set_ne (s : CO2SensitivityAnalysis) (p q : Param) (v : ℝ)
    (h : q ≠ p) : getParam (setParam s p v) q = getParam s q := by
  cases p <;> cases q <;> first | exact absurd rfl h | rfl

/-- `setParam` never touches the calculator's integer lifetime field. -/
theorem setParam_lifetime (s : CO2SensitivityAnalysis) (p : Param) (v : ℝ) :
    (setParam s p v).calculator.project_lifetime
      = s.calculator.project_lifetime := by
  cases p <;> rfl

/-- Reading any field after the `finally` restoration fold: parameters in the
list read their snapshotted value, the rest read the pre-fold state. -/
theorem foldl_restore_getParam (s0 : CO2SensitivityAnalysis)
    (ps : List Param) (st : CO2SensitivityAnalysis) (q : Param) :
    getParam (ps.foldl (fun a p => setParam a p (getParam s0 p)) st) q
      = if q ∈ ps then getParam s0 q else getParam st q := by
  induction ps generalizing st with
  | nil => simp
  | cons p ps ih =>
      rw [List.foldl_cons, ih]
      by_cases hq : q ∈ ps
      · simp [hq, List.mem_cons]
      · by_cases hqp : q = p
        · subst hqp
          simp [hq, get_set_same]
        · simp [hq, hqp, get_set_ne s0 p q _ hqp, get_set_ne st p q _ hqp]

/-- The inner sweep loop only mutates the field it sweeps. -/
theorem runValues_getParam (p : Param) (vals : List ℝ)
    (st : CO2SensitivityAnalysis) (q : Param) (hq : q ≠ p) :
    getParam (runValues p st vals).1 q = getParam st q := by
  induction vals generalizing st with
  | nil => rfl
  | cons v vs ih =>
      rw [runValues]
      cases hm : calculate_levelized_cost_of_co2 (setParam st p v) with
      | error e => simpa using get_set_ne st p q v hq
      | ok r =>
          rcases hrv : runValues p (setParam st p v) vs with ⟨stf, rs, err⟩
          have := ih (setParam st p v)
          rw [hrv] at this
          simpa [hrv] using this.trans (get_set_ne st p q v hq)

/-- The outer sweep loop only mutates fields named in its work list. -/
theorem sweepLoop_getParam (orig : Param → ℝ)
    (zipped : List (Param × List ℝ)) (st : CO2SensitivityAnalysis)
    (res : Param → List ℝ) (q : Param) (h : ∀ pv ∈ zipped, q ≠ pv.1) :
    getParam (sweepLoop orig st res zipped).1 q = getParam st q := by
  induction zipped generalizing st res with
  | nil => rfl
  | cons pv rest ih =>
      obtain ⟨p, vals⟩ := pv
      have hqp : q ≠ p := h (p, vals) (List.mem_cons_self _ _)
      rw [sweepLoop]
      rcases hrv : runValues p st vals with ⟨st1, rs, err⟩
      have hst1 : getParam st1 q = getParam st q := by
        have := runValues_getParam p vals st q hqp
        rwa [hrv] at this
      cases err with
      | some e => simpa using hst1
      | none =>
          have hrest : ∀ pv ∈ rest, q ≠ pv.1 :=
            fun pv hpv => h pv (List.mem_cons_of_mem _ hpv)
          simp only []
          rw [ih _ _ hrest, get_set_ne st1 p q _ hqp, hst1]

/-- Every field of the state observable after `analyze_parameter` equals its
pre-call value: swept parameters are restored by the `finally` fold and
unswept fields are never written. -/
theorem analyze_parameter_getParam (s : CO2SensitivityAnalysis)
    (parameters : List Param) (range_values : List (List ℝ)) (q : Param) :
    getParam (analyze_parameter s parameters range_values).self q
      = getParam s q := by
  simp only [analyze_parameter]
  rw [foldl_restore_getParam]
  by_cases hq : q ∈ parameters
  · simp [hq]
  · rw [if_neg hq, sweepLoop_getParam]
    intro pv hpv
    intro hqeq
    exact hq (by rw [hqeq]; exact (List.of_mem_zip hpv).1)

/-- Claim C1: for every list of swept parameter names and every list of value
ranges, whether the sweep succeeded or a metric computation failed part-way,
every field of the runner and of the wrapped calculator observable after
`analyze_parameter` returns equals its pre-call value exactly. -/
theorem analyze_parameter_restores (s : CO2SensitivityAnalysis)
    (parameters : List Param) (range_values : List (List ℝ)) (q : Param) :
    getParam (analyze_parameter s parameters range_values).self q
      = getParam s q :=
  analyze_parameter_getParam s parameters range_values q

/-- With a zero lifetime, the levelized-cost computation raises
(`ZeroDivisionError` at `total_co2_captured / project_lifetime`). -/
theorem lco2_error_of_lifetime_zero (s : CO2SensitivityAnalysis)
    (h : s.calculator.project_lifetime = 0) :
    calculate_levelized_cost_of_co2 s = .error "division by zero" := by
  rw [calculate_levelized_cost_of_co2, if_pos h]

/-- With a nonzero lifetime, the levelized-cost computation returns a value. -/
theorem lco2_ok_of_lifetime_ne_zero (s : CO2SensitivityAnalysis)
    (h : s.calculator.project_lifetime ≠ 0) :
    ∃ r, calculate_levelized_cost_of_co2 s = .ok r := by
  rw [calculate_levelized_cost_of_co2, if_neg h]
  exact ⟨_, rfl⟩

/-- A one-parameter, one-value sweep on a state with nonzero lifetime
completes without any caught exception and records exactly one metric
value for the swept name, whatever the written value is. -/
theorem analyze_single_ok (s : CO2SensitivityAnalysis) (p : Param) (v : ℝ)
    (h : s.calculator.project_lifetime ≠ 0) :
    (analyze_parameter s [p] [[v]]).printed = none
    ∧ ((analyze_parameter s [p] [[v]]).results p).length = 1 := by
  obtain ⟨r, hr⟩ := lco2_ok_of_lifetime_ne_zero (setParam s p v)
    (by rw [setParam_lifetime]; exact h)
  constructor
  · simp [analyze_parameter, sweepLoop, runValues, hr]
  · simp [analyze_parameter, sweepLoop, runValues, hr]

/-- A one-parameter, one-value sweep whose metric computation raises: the
exception is caught, only a message is printed, the state is restored, and
the returned dictionary holds nothing but plain (empty) value lists. -/
theorem analyze_single_error (s : CO2SensitivityAnalysis) (p : Param) (v : ℝ)
    (q : Param) (h : s.calculator.project_lifetime = 0) :
    calculate_levelized_cost_of_co2 (setParam s p v) = .error "division by zero"
    ∧ (analyze_parameter s [p] [[v]]).printed
        = some ("Error occurred during analysis: " ++ "division by zero")
    ∧ getParam (analyze_parameter s [p] [[v]]).self q = getParam s q
    ∧ (analyze_parameter s [p] [[v]]).results q = [] := by
  have hr : calculate_levelized_cost_of_co2 (setParam s p v)
      = .error "division by zero" :=
    lco2_error_of_lifetime_zero _ (by rw [setParam_lifetime]; exact h)
  refine ⟨hr, ?_, analyze_parameter_getParam s [p] [[v]] q, ?_⟩
  · simp [analyze_parameter, sweepLoop, runValues, hr]
  · by_cases hq : q = p <;>
      simp [analyze_parameter, sweepLoop, runValues, hr, hq]

/-- The usage-example state with the wrapped calculator's lifetime forced to
zero by direct field injection (the state a sweep over `project_lifetime`
with value 0 would reach), making the metric computation raise. -/
noncomputable def degenerateSensitivity : CO2SensitivityAnalysis :=
  { exampleSensitivity with
      calculator := { exampleCalculator with project_lifetime := 0 } }

/-- Counterexample to claim C2: at this concrete sweep the metric computation
raises inside the iteration, yet `analyze_parameter` returns normally — the
dictionary handed back to the caller holds only a plain empty list, with no
raised or returned failure; the error is reported only on standard output. -/
theorem sweep_error_not_raised :
    calculate_levelized_cost_of_co2
        (setParam degenerateSensitivity Param.carbon_tax 1)
      = .error "division by zero"
    ∧ (analyze_parameter degenerateSensitivity [Param.carbon_tax] [[1]]).results
        Param.carbon_tax = []
    ∧ (analyze_parameter degenerateSensitivity [Param.carbon_tax] [[1]]).printed
        = some ("Error occurred during analysis: " ++ "division by zero") :=
  ⟨(analyze_single_error degenerateSensitivity Param.carbon_tax 1
      Param.carbon_tax rfl).1,
   (analyze_single_error degenerateSensitivity Param.carbon_tax 1
      Param.carbon_tax rfl).2.2.2,
   (analyze_single_error degenerateSensitivity Param.carbon_tax 1
      Param.carbon_tax rfl).2.1⟩

/-- Claim C2 (amended): an error raised inside a sweep iteration is caught at
the sweep boundary and swallowed — after restoring the parameter state,
`analyze_parameter` returns the accumulated results normally, reporting the
failure only through a printed message, never by re-raising or by a failure
value in the returned dictionary. -/
theorem analyze_error_swallowed (s : CO2SensitivityAnalysis) (p : Param)
    (v : ℝ) (q : Param) (h : s.calculator.project_lifetime = 0) :
    (analyze_parameter s [p] [[v]]).printed
        = some ("Error occurred during analysis: " ++ "division by zero")
    ∧ getParam (analyze_parameter s [p] [[v]]).self q = getParam s q
    ∧ (analyze_parameter s [p] [[v]]).results q = [] :=
  ⟨(analyze_single_error s p v q h).2.1,
   (analyze_single_error s p v q h).2.2.1,
   (analyze_single_error s p v q h).2.2.2⟩

/-- Witness for `analyze_error_swallowed` at the degenerate example state. -/
theorem analyze_error_swallowed_witness :
    (analyze_parameter degenerateSensitivity [Param.learning_rate] [[0.2]]).printed
        = some ("Error occurred during analysis: " ++ "division by zero")
    ∧ getParam (analyze_parameter degenerateSensitivity [Param.learning_rate]
          [[0.2]]).self Param.learning_rate
        = getParam degenerateSensitivity Param.learning_rate
    ∧ (analyze_parameter degenerateSensitivity [Param.learning_rate]
          [[0.2]]).results Param.learning_rate = [] :=
  analyze_error_swallowed degenerateSensitivity Param.learning_rate 0.2
    Param.learning_rate rfl

/-- Claim C3 (amended): a sweep write performs no validation — any real value
is stored directly in the named field and the metric is computed with it; no
`InvalidParameter` is raised and the sweep completes, recording a metric
value for the written value. -/
theorem sweep_write_no_validation (s : CO2SensitivityAnalysis) (p : Param)
    (v : ℝ) (h : s.calculator.project_lifetime ≠ 0) :
    getParam (setParam s p v) p = v
    ∧ (analyze_parameter s [p] [[v]]).printed = none
    ∧ ((analyze_parameter s [p] [[v]]).results p).length = 1 :=
  ⟨get_set_same s p v, (analyze_single_ok s p v h).1,
    (analyze_single_ok s p v h).2⟩

/-- Witness for `sweep_write_no_validation`: even the wildly invalid capture
amount `-1` is written and swept without error. -/
theorem sweep_write_no_validation_witness :
    getParam (setParam exampleSensitivity Param.co2_captured_per_year (-1))
        Param.co2_captured_per_year = -1
    ∧ (analyze_parameter exampleSensitivity [Param.co2_captured_per_year]
          [[-1]]).printed = none
    ∧ ((analyze_parameter exampleSensitivity [Param.co2_captured_per_year]
          [[-1]]).results Param.co2_captured_per_year).length = 1 :=
  sweep_write_no_validation exampleSensitivity Param.co2_captured_per_year
    (-1) (by decide)

/-- Counterexample to claim C3: writing the efficiency 0.5 — outside its
declared plausible range `[0.7, 0.95]` — during a sweep raises nothing: the
sweep completes silently and computes a metric value from the out-of-range
state. -/
theorem sweep_write_out_of_range_accepted :
    ¬ (0.7 ≤ (0.5 : ℝ))
    ∧ getParam (setParam exampleSensitivity Param.co2_capture_efficiency 0.5)
        Param.co2_capture_efficiency = 0.5
    ∧ (analyze_parameter exampleSensitivity [Param.co2_capture_efficiency]
          [[0.5]]).printed = none
    ∧ ((analyze_parameter exampleSensitivity [Param.co2_capture_efficiency]
          [[0.5]]).results Param.co2_capture_efficiency).length = 1 :=
  ⟨by norm_num, get_set_same exampleSensitivity Param.co2_capture_efficiency 0.5,
    (analyze_single_ok exampleSensitivity Param.co2_capture_efficiency 0.5
      (by decide)).1,
    (analyze_single_ok exampleSensitivity Param.co2_capture_efficiency 0.5
      (by decide)).2⟩
